import Mathlib

/-!
Verification of the directory-client core of the ActiveDirectory-serch
repository: a shallow embedding of `src/ldapclient.py` and
`src/logger_setup.py` (the session lifecycle, the protected-group
confirmation guard, and the structured audit-event pipeline), together
with theorems settling the specified properties.
-/

namespace ADSearch

/-- Python `logging` levels used by the source (`logger.info`,
`logger.warning`, `logger.error`). -/
inductive LogLevel
| info
| warning
| error
deriving DecidableEq, Repr

/-- A log record as produced by the `logging` module and consumed by
`JsonFormatter.format` in `logger_setup.py`.  The `extra` attributes
`user`, `action`, `object`, `status` may be absent on a raw record, which
`getattr(record, name, default)` handles; `Option` models that absence. -/
structure LogRecord where
  level : LogLevel
  user : Option String
  action : Option String
  object : Option String
  status : Option String
  message : String
deriving DecidableEq, Repr

/-- `logger_setup.log_info`: builds an INFO record with the `extra`
attributes set.  The Python defaults `status="success"`, `user="local_user"`
apply when the caller omits the argument, modelled by `none`. -/
def log_info (action obj message : String) (status user : Option String) : LogRecord :=
  ⟨LogLevel.info, some (user.getD "local_user"), some action, some obj,
   some (status.getD "success"), message⟩

/-- `logger_setup.log_error`: builds an ERROR record; Python defaults
`status="failure"`, `user="local_user"`. -/
def log_error (action obj message : String) (status user : Option String) : LogRecord :=
  ⟨LogLevel.error, some (user.getD "local_user"), some action, some obj,
   some (status.getD "failure"), message⟩

namespace JsonFormatter

/-- `logger_setup.JsonFormatter.format`: serializes a record as one JSON
object with exactly six fields, defaulting missing attributes via
`getattr`.  `now` is the value of `datetime.utcnow().isoformat()`; the
code appends `"Z"`.  The result is the ordered field list of the single
JSON object emitted. -/
def format (now : String) (record : LogRecord) : List (String × String) :=
  [("timestamp", now ++ "Z"),
   ("user", record.user.getD "local_user"),
   ("action", record.action.getD "unknown"),
   ("object", record.object.getD "unknown"),
   ("status", record.status.getD "success"),
   ("message", record.message)]

end JsonFormatter

/-- Outcome of `open("sensitive_groups.json")` + `json.load` in
`LDAPClient.__init__`: success with a parsed group list, or one of the
three exception branches the code catches (`FileNotFoundError`,
`json.JSONDecodeError`, any other `Exception e`). -/
inductive LoadOutcome
| ok (groups : List String)
| fileNotFound
| jsonDecodeError
| otherError (e : String)
deriving DecidableEq, Repr

/-- The protected-group loading logic of `LDAPClient.__init__`
(ldapclient.py lines 33-46): on success keep the parsed list; on any of
the three failure branches, emit one `log_error` entry and fall back to
the empty list.  Returns the resulting `protected_groups` together with
the log entries emitted. -/
def load_protected_groups : LoadOutcome → List String × List LogRecord
| LoadOutcome.ok gs => (gs, [])
| LoadOutcome.fileNotFound =>
    ([], [log_error "init" "sensitive_groups.json"
            "Sensitive groups file not found. No groups will be protected." none none])
| LoadOutcome.jsonDecodeError =>
    ([], [log_error "init" "sensitive_groups.json"
            "Error decoding sensitive groups JSON. No groups will be protected." none none])
| LoadOutcome.otherError e =>
    ([], [log_error "init" "sensitive_groups.json"
            ("An unexpected error occurred loading sensitive groups: " ++ e
              ++ ". No groups will be protected.") none none])

/-- The guard decision of the spec's ProtectedResourceGuard. -/
inductive GuardDecision
| Protected
| Unprotected
deriving DecidableEq, Repr

/-- The guard check: membership of the object identifier in the loaded
protected set, as performed by `group_dn_or_name in self.protected_groups`
(ldapclient.py line 108). -/
def check (protected_groups : List String) (objectId : String) : GuardDecision :=
  if protected_groups.contains objectId then GuardDecision.Protected
  else GuardDecision.Unprotected

/-- The mutable state of an `LDAPClient` instance relevant to the core:
the protected-group set loaded at construction and the `_connected` flag. -/
structure LDAPClient where
  protected_groups : List String
  _connected : Bool
deriving DecidableEq, Repr

/-- External interactions an operation can perform: a console confirmation
prompt (`input()` after the warning print) and a directory modification.
The source never performs a real directory call (all `ldap3` operations
are commented out), so `modifyDir` is never emitted by the embedded code;
it exists so absence of directory calls is a provable statement. -/
inductive ExtCall
| promptConfirm (user_dn group_dn : String)
| modifyDir (group_dn user_dn : String)
deriving DecidableEq, Repr

/-- Python `str.strip()`: remove leading and trailing whitespace. -/
def py_strip (s : String) : String :=
  ⟨((s.data.dropWhile Char.isWhitespace).reverse.dropWhile Char.isWhitespace).reverse⟩

/-- Python `str.lower()`: lowercase every character. -/
def py_lower (s : String) : String :=
  ⟨s.data.map Char.toLower⟩

/-- `LDAPClient.connect` (ldapclient.py lines 52-94).  The real bind is
commented out; the active code logs an attempt, unconditionally sets
`_connected = True`, logs a success event and returns simulated success.
`ldap_user` is `self.ldap_user`, `action_user` is `getpass.getuser()`.
Returns ((success flag, message), new state, log records emitted). -/
def connect (st : LDAPClient) (target ldap_user action_user : String) :
    (Bool × String) × LDAPClient × List LogRecord :=
  let e_attempt := log_info "connect" target
    ("Attempting to connect with user: " ++ ldap_user) none (some action_user)
  let st2 : LDAPClient := ⟨st.protected_groups, true⟩
  let e_done := log_info "connect" target "Connection established (simulated)"
    (some "success") (some action_user)
  ((true, "Successfully connected (simulated)"), st2, [e_attempt, e_done])

/-- `LDAPClient.is_connected` (ldapclient.py lines 96-98): pure read of
the `_connected` flag. -/
def is_connected (st : LDAPClient) : Bool :=
  st._connected

/-- `LDAPClient.add_user_to_group` (ldapclient.py lines 101-146).
`console_input` is what `input()` returns when the protected-group
confirmation prompt fires; the code compares `input().strip().lower()`
against `"y"`.  The connection check and the real `modify` call are
commented out, so the unprotected / approved paths return simulated
success without consulting the session state or the directory.
Returns ((success flag, message), log records, external calls). -/
def add_user_to_group (st : LDAPClient) (user_dn group_dn_or_name user : String)
    (console_input : String) :
    (Bool × String) × List LogRecord × List ExtCall :=
  let e_attempt := log_info "addtogroup" group_dn_or_name
    ("Attempting to add user " ++ user_dn ++ " to group " ++ group_dn_or_name)
    none (some user)
  if st.protected_groups.contains group_dn_or_name then
    let e_pending := log_info "addtogroup" group_dn_or_name
      ("Group " ++ group_dn_or_name ++ " is a protected group. Requesting confirmation.")
      (some "pending_confirmation") (some user)
    let confirmation := py_lower (py_strip console_input)
    if confirmation ≠ "y" then
      let e_cancel := log_info "addtogroup" group_dn_or_name
        "Operation cancelled by user" (some "cancelled") (some user)
      ((false, "Operation cancelled by user"),
       [e_attempt, e_pending, e_cancel],
       [ExtCall.promptConfirm user_dn group_dn_or_name])
    else
      let e_confirmed := log_info "addtogroup" group_dn_or_name
        "User confirmed operation for protected group." none (some user)
      let e_done := log_info "addtogroup" group_dn_or_name
        ("Successfully added user " ++ user_dn ++ " (simulated)") (some "success") (some user)
      ((true, "Successfully added user to group (simulated)"),
       [e_attempt, e_pending, e_confirmed, e_done],
       [ExtCall.promptConfirm user_dn group_dn_or_name])
  else
    let e_done := log_info "addtogroup" group_dn_or_name
      ("Successfully added user " ++ user_dn ++ " (simulated)") (some "success") (some user)
    ((true, "Successfully added user to group (simulated)"),
     [e_attempt, e_done], [])

/-- `LDAPClient.get_status` (ldapclient.py lines 148-156): a pure read via
`is_connected` formatting a human-readable string; the logging call inside
it is commented out, so it emits no log records. -/
def get_status (st : LDAPClient) : String × List LogRecord :=
  ((if is_connected st then "✔ Подключено" else "❌ Нет подключения"), [])

/-- A record carries a terminal status (success, failure or cancelled). -/
def terminalStatus (e : LogRecord) : Bool :=
  e.status == some "success" || e.status == some "failure" || e.status == some "cancelled"

/-- Path evaluation: protected group, confirmation declined. -/
lemma add_protected_declined (st : LDAPClient) (u g a inp : String)
    (h1 : st.protected_groups.contains g = true) (h2 : py_lower (py_strip inp) ≠ "y") :
    add_user_to_group st u g a inp =
      ((false, "Operation cancelled by user"),
       [log_info "addtogroup" g ("Attempting to add user " ++ u ++ " to group " ++ g)
          none (some a),
        log_info "addtogroup" g
          ("Group " ++ g ++ " is a protected group. Requesting confirmation.")
          (some "pending_confirmation") (some a),
        log_info "addtogroup" g "Operation cancelled by user" (some "cancelled") (some a)],
       [ExtCall.promptConfirm u g]) := by
  have h1m : g ∈ st.protected_groups := by simpa using h1
  simp [add_user_to_group, h1m, h2]

/-- Path evaluation: protected group, confirmation approved. -/
lemma add_protected_approved (st : LDAPClient) (u g a inp : String)
    (h1 : st.protected_groups.contains g = true) (h2 : py_lower (py_strip inp) = "y") :
    add_user_to_group st u g a inp =
      ((true, "Successfully added user to group (simulated)"),
       [log_info "addtogroup" g ("Attempting to add user " ++ u ++ " to group " ++ g)
          none (some a),
        log_info "addtogroup" g
          ("Group " ++ g ++ " is a protected group. Requesting confirmation.")
          (some "pending_confirmation") (some a),
        log_info "addtogroup" g "User confirmed operation for protected group." none (some a),
        log_info "addtogroup" g ("Successfully added user " ++ u ++ " (simulated)")
          (some "success") (some a)],
       [ExtCall.promptConfirm u g]) := by
  have h1m : g ∈ st.protected_groups := by simpa using h1
  simp [add_user_to_group, h1m, h2]

/-- Path evaluation: unprotected group. -/
lemma add_unprotected (st : LDAPClient) (u g a inp : String)
    (h1 : st.protected_groups.contains g = false) :
    add_user_to_group st u g a inp =
      ((true, "Successfully added user to group (simulated)"),
       [log_info "addtogroup" g ("Attempting to add user " ++ u ++ " to group " ++ g)
          none (some a),
        log_info "addtogroup" g ("Successfully added user " ++ u ++ " (simulated)")
          (some "success") (some a)],
       []) := by
  have h1m : g ∉ st.protected_groups := by simpa using h1
  simp [add_user_to_group, h1m]

/-- C1: for every group identifier in the loaded protected-group set,
`add_user_to_group` issues the confirmation prompt, and it does so before
any directory modification in its external-call trace; for every group
identifier not in the set, it never issues a prompt. -/
theorem C1_protected_prompts_unprotected_never
    (st : LDAPClient) (user_dn group_dn user console_input : String) :
    (st.protected_groups.contains group_dn = true →
      ∃ i, ((add_user_to_group st user_dn group_dn user console_input).2.2.get? i =
              some (ExtCall.promptConfirm user_dn group_dn)) ∧
        ∀ j g2 u2, ((add_user_to_group st user_dn group_dn user console_input).2.2.get? j =
              some (ExtCall.modifyDir g2 u2)) → i < j) ∧
    (st.protected_groups.contains group_dn = false →
      ∀ u2 g2, ExtCall.promptConfirm u2 g2 ∉
        (add_user_to_group st user_dn group_dn user console_input).2.2) := by
  constructor
  · intro h1
    by_cases h2 : py_lower (py_strip console_input) = "y"
    · rw [add_protected_approved st user_dn group_dn user console_input h1 h2]
      refine ⟨0, rfl, ?_⟩
      intro j g2 u2 hj
      cases j <;> simp_all
    · rw [add_protected_declined st user_dn group_dn user console_input h1 h2]
      refine ⟨0, rfl, ?_⟩
      intro j g2 u2 hj
      cases j <;> simp_all
  · intro h1 u2 g2
    rw [add_unprotected st user_dn group_dn user console_input h1]
    simp

/-- Witness for C1: with protected set `["G"]`, adding to `"G"` prompts
(and any directory modification would come after), while adding to `"H"`
never prompts. -/
theorem C1_witness :
    (∃ i, (((add_user_to_group ⟨["G"], false⟩ "CN=u" "G" "alice" "n").2.2.get? i) =
            some (ExtCall.promptConfirm "CN=u" "G")) ∧
      ∀ j g2 u2, (((add_user_to_group ⟨["G"], false⟩ "CN=u" "G" "alice" "n").2.2.get? j) =
            some (ExtCall.modifyDir g2 u2)) → i < j) ∧
    (∀ u2 g2, ExtCall.promptConfirm u2 g2 ∉
        (add_user_to_group ⟨["G"], false⟩ "CN=u" "H" "alice" "n").2.2) :=
  ⟨(C1_protected_prompts_unprotected_never ⟨["G"], false⟩ "CN=u" "G" "alice" "n").1 (by decide),
   (C1_protected_prompts_unprotected_never ⟨["G"], false⟩ "CN=u" "H" "alice" "n").2 (by decide)⟩

/-- C2 counterexample: on the declined path for protected group `"G"`,
the recorded events contain exactly one record with status `"success"`
(the initial attempt record, whose status defaults to `"success"`), so
the claim's requirement of zero success-status events fails. -/
theorem C2_counterexample :
    ((add_user_to_group ⟨["G"], false⟩ "CN=u" "G" "alice" "n").2.1.countP
        (fun e => e.status == some "success") = 1) ∧
    ¬ ((add_user_to_group ⟨["G"], false⟩ "CN=u" "G" "alice" "n").2.1.countP
        (fun e => e.status == some "success") = 0) := by
  constructor
  · decide
  · decide

/-- C2 (amended): a declined confirmation for a protected group returns
the cancelled outcome, performs no directory modification, and records
exactly one `cancelled` event, zero `failure` events and exactly one
record with status `"success"` (the initial attempt record, which carries
the default status). -/
theorem C2_declined_cancels (st : LDAPClient) (u g a inp : String)
    (h1 : st.protected_groups.contains g = true) (h2 : py_lower (py_strip inp) ≠ "y") :
    (add_user_to_group st u g a inp).1 = (false, "Operation cancelled by user") ∧
    (∀ g2 u2, ExtCall.modifyDir g2 u2 ∉ (add_user_to_group st u g a inp).2.2) ∧
    (add_user_to_group st u g a inp).2.1.countP
      (fun e => e.status == some "cancelled") = 1 ∧
    (add_user_to_group st u g a inp).2.1.countP
      (fun e => e.status == some "failure") = 0 ∧
    (add_user_to_group st u g a inp).2.1.countP
      (fun e => e.status == some "success") = 1 := by
  rw [add_protected_declined st u g a inp h1 h2]
  refine ⟨rfl, ?_, ?_, ?_, ?_⟩
  · intro g2 u2
    simp
  · simp [List.countP_cons, log_info]
  · simp [List.countP_cons, log_info]
  · simp [List.countP_cons, log_info]

/-- Witness for C2's amended theorem at protected group `"G"` with
declined input `"n"`. -/
theorem C2_witness :
    ((add_user_to_group ⟨["G"], false⟩ "CN=u" "G" "alice" "n").1 =
      (false, "Operation cancelled by user")) ∧
    (∀ g2 u2, ExtCall.modifyDir g2 u2 ∉
        (add_user_to_group ⟨["G"], false⟩ "CN=u" "G" "alice" "n").2.2) ∧
    ((add_user_to_group ⟨["G"], false⟩ "CN=u" "G" "alice" "n").2.1.countP
        (fun e => e.status == some "cancelled") = 1) ∧
    ((add_user_to_group ⟨["G"], false⟩ "CN=u" "G" "alice" "n").2.1.countP
        (fun e => e.status == some "failure") = 0) ∧
    ((add_user_to_group ⟨["G"], false⟩ "CN=u" "G" "alice" "n").2.1.countP
        (fun e => e.status == some "success") = 1) :=
  C2_declined_cancels ⟨["G"], false⟩ "CN=u" "G" "alice" "n" (by decide) (by decide)

/-- C3: the session-connectivity check of the spec is commented out in
the source; on a disconnected client and an unprotected group the code
neither prompts nor touches the directory, but it returns simulated
success instead of a NotConnected error. -/
theorem C3_code_behavior :
    is_connected ⟨["G"], false⟩ = false ∧
    (add_user_to_group ⟨["G"], false⟩ "CN=u" "H" "alice" "").1 =
      (true, "Successfully added user to group (simulated)") ∧
    (add_user_to_group ⟨["G"], false⟩ "CN=u" "H" "alice" "").2.2 = [] := by
  refine ⟨rfl, ?_, ?_⟩ <;> decide

/-- C4: the real bind is commented out in the source; `connect` consults
no directory at all, always returns simulated success, always sets
`_connected`, and records two `success` events and no `failure` event. -/
theorem C4_code_behavior :
    (connect ⟨[], false⟩ "dc1" "admin" "local_user").1 =
      (true, "Successfully connected (simulated)") ∧
    (connect ⟨[], false⟩ "dc1" "admin" "local_user").2.1._connected = true ∧
    (connect ⟨[], false⟩ "dc1" "admin" "local_user").2.2.countP
      (fun e => e.status == some "failure") = 0 ∧
    (connect ⟨[], false⟩ "dc1" "admin" "local_user").2.2.countP
      (fun e => e.status == some "success") = 2 := by
  refine ⟨rfl, rfl, ?_, ?_⟩ <;> decide

/-- C5 counterexample: a `connect` call records two events whose status
is a terminal status (both `"success"`: the attempt record by default and
the terminal record), so it does not record exactly one such event. -/
theorem C5_counterexample :
    ((connect ⟨[], false⟩ "dc1" "admin" "local_user").2.2.countP terminalStatus = 2) ∧
    ¬ ((connect ⟨[], false⟩ "dc1" "admin" "local_user").2.2.countP terminalStatus = 1) := by
  constructor
  · decide
  · decide

/-- C5 (amended): every call to `connect` and to `add_user_to_group`
records a nonempty event sequence whose last event's status matches the
kind of result returned: `"success"` when the returned flag is true,
`"cancelled"` when the operation was declined (the only false result the
code produces). -/
theorem C5_last_event_matches_result
    (st : LDAPClient) (target lu au u g a inp : String) :
    ((connect st target lu au).1.1 = true ∧
      ((connect st target lu au).2.2.getLast?).map LogRecord.status =
        some (some "success")) ∧
    (((add_user_to_group st u g a inp).2.1.getLast?).map LogRecord.status =
      some (some (if (add_user_to_group st u g a inp).1.1 then "success"
                  else "cancelled"))) := by
  refine ⟨⟨rfl, rfl⟩, ?_⟩
  by_cases h1 : st.protected_groups.contains g = true
  · by_cases h2 : py_lower (py_strip inp) = "y"
    · rw [add_protected_approved st u g a inp h1 h2]
      rfl
    · rw [add_protected_declined st u g a inp h1 h2]
      rfl
  · rw [add_unprotected st u g a inp (by simpa using h1)]
    rfl

/-- C6: for a protected group with an approved confirmation, the result
is success and the recorded events contain a `pending_confirmation`
record strictly before the terminal `success` record. -/
theorem C6_pending_before_success (st : LDAPClient) (u g a inp : String)
    (h1 : st.protected_groups.contains g = true) (h2 : py_lower (py_strip inp) = "y") :
    (add_user_to_group st u g a inp).1 =
      (true, "Successfully added user to group (simulated)") ∧
    ∃ i j, i < j ∧ j + 1 = (add_user_to_group st u g a inp).2.1.length ∧
      ((add_user_to_group st u g a inp).2.1.get? i).map LogRecord.status =
        some (some "pending_confirmation") ∧
      ((add_user_to_group st u g a inp).2.1.get? j).map LogRecord.status =
        some (some "success") := by
  rw [add_protected_approved st u g a inp h1 h2]
  exact ⟨rfl, 1, 3, by omega, rfl, rfl, rfl⟩

/-- Witness for C6 at protected group `"G"` with approving input `"y"`. -/
theorem C6_witness :
    ((add_user_to_group ⟨["G"], false⟩ "CN=u" "G" "alice" "y").1 =
      (true, "Successfully added user to group (simulated)")) ∧
    ∃ i j, i < j ∧
      j + 1 = (add_user_to_group ⟨["G"], false⟩ "CN=u" "G" "alice" "y").2.1.length ∧
      (((add_user_to_group ⟨["G"], false⟩ "CN=u" "G" "alice" "y").2.1.get? i).map
        LogRecord.status = some (some "pending_confirmation")) ∧
      (((add_user_to_group ⟨["G"], false⟩ "CN=u" "G" "alice" "y").2.1.get? j).map
        LogRecord.status = some (some "success")) :=
  C6_pending_before_success ⟨["G"], false⟩ "CN=u" "G" "alice" "y" (by decide) (by decide)

/-- C7 counterexample: when the protected-resource file is missing, the
single log entry emitted is error-level (via `log_error` / `logger.error`),
not warning-level, so the claim's "exactly one warning-level entry" fails. -/
theorem C7_counterexample :
    ((load_protected_groups LoadOutcome.fileNotFound).2.countP
        (fun e => e.level == LogLevel.warning) = 0) ∧
    ¬ ((load_protected_groups LoadOutcome.fileNotFound).2.countP
        (fun e => e.level == LogLevel.warning) = 1) := by
  constructor
  · decide
  · decide

/-- C7 (amended): on every load failure (missing file, invalid JSON, or
any other error), construction still yields an empty protected-group set,
exactly one log entry is emitted and it is error-level, and the guard
check subsequently returns Unprotected for every object identifier. -/
theorem C7_load_failure_fail_open (out : LoadOutcome)
    (h : ∀ gs, out ≠ LoadOutcome.ok gs) :
    (load_protected_groups out).1 = [] ∧
    (load_protected_groups out).2.length = 1 ∧
    (load_protected_groups out).2.countP (fun e => e.level == LogLevel.error) = 1 ∧
    ∀ objectId, check (load_protected_groups out).1 objectId =
      GuardDecision.Unprotected := by
  cases out with
  | ok gs => exact absurd rfl (h gs)
  | fileNotFound => exact ⟨rfl, rfl, by decide, fun o => rfl⟩
  | jsonDecodeError => exact ⟨rfl, rfl, by decide, fun o => rfl⟩
  | otherError e =>
      exact ⟨rfl, rfl, by simp [load_protected_groups, log_error, List.countP_cons],
             fun o => rfl⟩

/-- Witness for C7's amended theorem at the missing-file outcome. -/
theorem C7_witness :
    ((load_protected_groups LoadOutcome.fileNotFound).1 = []) ∧
    ((load_protected_groups LoadOutcome.fileNotFound).2.length = 1) ∧
    ((load_protected_groups LoadOutcome.fileNotFound).2.countP
        (fun e => e.level == LogLevel.error) = 1) ∧
    ∀ objectId, check (load_protected_groups LoadOutcome.fileNotFound).1 objectId =
      GuardDecision.Unprotected :=
  C7_load_failure_fail_open LoadOutcome.fileNotFound (fun gs h => by cases h)

/-- C8: every serialized audit event is a single JSON object whose field
names are exactly timestamp, user, action, object, status, message, in
that order, for every record passed to the formatter. -/
theorem C8_schema (now : String) (record : LogRecord) :
    (JsonFormatter.format now record).map Prod.fst =
      ["timestamp", "user", "action", "object", "status", "message"] := rfl

/-- C9: `get_status` emits no log records, returns exactly the formatted
string determined by `is_connected`, and `is_connected` is the pure read
of the `_connected` flag. -/
theorem C9_status_pure (st : LDAPClient) :
    (get_status st).2 = [] ∧
    (get_status st).1 =
      (if is_connected st then "✔ Подключено" else "❌ Нет подключения") ∧
    is_connected st = st._connected :=
  ⟨rfl, rfl, rfl⟩

/-- C10: a record lacking a status attribute is serialized with status
`"success"` and one lacking an actor with user `"local_user"`; `log_info`
with its status argument omitted likewise stamps status `"success"`. -/
theorem C10_default_status (act obj msg now mF : String) (lvl : LogLevel)
    (aF oF u : Option String) :
    (log_info act obj msg none u).status = some "success" ∧
    (log_info act obj msg none none).user = some "local_user" ∧
    ("status", "success") ∈ JsonFormatter.format now ⟨lvl, none, aF, oF, none, mF⟩ ∧
    ("user", "local_user") ∈ JsonFormatter.format now ⟨lvl, none, aF, oF, none, mF⟩ := by
  refine ⟨rfl, rfl, ?_, ?_⟩
  · show ("status", "success") ∈ [("timestamp", now ++ "Z"), ("user", "local_user"),
      ("action", aF.getD "unknown"), ("object", oF.getD "unknown"),
      ("status", "success"), ("message", mF)]
    exact List.Mem.tail _ (List.Mem.tail _ (List.Mem.tail _ (List.Mem.tail _
      (List.mem_cons_self _ _))))
  · show ("user", "local_user") ∈ [("timestamp", now ++ "Z"), ("user", "local_user"),
      ("action", aF.getD "unknown"), ("object", oF.getD "unknown"),
      ("status", "success"), ("message", mF)]
    exact List.Mem.tail _ (List.mem_cons_self _ _)

end ADSearch
